import Mathlib

/-!
Shallow embedding of `src/main.py` (WindowToHell): a websocket subscriber
with reconnection/backoff, a two-step metadata+image fetch pipeline, and a
bounded image queue, together with theorems settling the spec's claims.

Modelling conventions:
* JSON values are the inductive `JValue` (numeric payloads abstracted to `Int`;
  no claim inspects them).
* Network, JSON parsing and image decoding are deterministic oracles packaged
  in `Env`; the embedded code is parameterised over them.
* Python exceptions are modelled with `Except`/`Option`: an operation that can
  raise returns `.error`/`none`, and a `try/except` block maps those outcomes
  to the handler's result.
* The `subscribe()` coroutine is a step function on an explicit program-point
  state machine (`SubState`, `step`); environment nondeterminism (connect
  success, inbound messages, the signal handler setting the shutdown flag,
  sleeps completing) is an event (`Ev`) fed to `step`.
-/

/-- JSON-like values, as produced by `json.loads` / `response.json()`. -/
inductive JValue where
  | str (s : String)
  | num (n : Int)
  | bool (b : Bool)
  | null
  | arr (xs : List JValue)
  | obj (fields : List (String × JValue))

/-- Result of one HTTP GET (`requests.get(url, timeout=5)` followed by
`raise_for_status()`): a 2xx response with a body, a non-2xx status
(`raise_for_status` raises), or a timeout (`requests.get` raises). -/
inductive HttpResult where
  | ok (body : String)
  | httpError (code : Nat)
  | timeout

/-- A decoded image (PIL `Image`): dimensions plus abstracted pixel data. -/
structure Img where
  width : Nat
  height : Nat
  payload : String
deriving DecidableEq, Repr

/-- `image.resize((400, 400))` — line 59 of main.py. -/
def Img.resize400 (i : Img) : Img :=
  { i with width := 400, height := 400 }

/-- The deterministic oracles the embedded program runs against: the network,
the JSON parser (`json.loads`; `none` = parse raises), and the image decoder
(`Image.open`; `none` = decoding raises). -/
structure Env where
  net : String → HttpResult
  parse : String → Option JValue
  decode : String → Option Img

/-- Whether `old` occurs as a contiguous substring of `s`, by left-to-right
scan. -/
def containsSub (old : List Char) : List Char → Bool
  | [] => old.isEmpty
  | c :: rest => old.isPrefixOf (c :: rest) || containsSub old rest

/-- Python `k in v` for a string key `k`: key membership on a dict, element
membership on a list (a non-string element never equals a string key),
substring test on a string, and `TypeError` (modelled `.error ()`) on the
remaining kinds of value. -/
def pyIn (k : String) : JValue → Except Unit Bool
  | .obj fields => .ok (fields.any (fun p => p.1 == k))
  | .arr xs => .ok (xs.any (fun x => match x with | .str s => s == k | _ => false))
  | .str s => .ok (containsSub k.data s.data)
  | _ => .error ()

/-- Python `v[k]` for a string key `k`: dict lookup (`KeyError` when absent),
`TypeError` (modelled `.error ()`) on any non-dict value. -/
def pyIndex (v : JValue) (k : String) : Except Unit JValue :=
  match v with
  | .obj fields =>
    match fields.find? (fun p => p.1 == k) with
    | some p => .ok p.2
    | none => .error ()
  | _ => .error ()

/-- Python `s.startswith(pre)`: character-prefix test. -/
def pyStartsWith (s pre : String) : Bool :=
  pre.data.isPrefixOf s.data

/-- One pass of Python `str.replace` over a character list, fuelled so that it
is structurally recursive: at each position, if `old` is a prefix it is
consumed and `new` emitted, otherwise one character is copied. For nonempty
`old`, fuel `s.length` is enough to process all of `s` (Python's
empty-pattern behaviour is not reproduced; the program only replaces the
nonempty pattern `ipfs://`). -/
def replaceAllFuel (old new : List Char) : Nat → List Char → List Char
  | 0, s => s
  | _ + 1, [] => []
  | fuel + 1, c :: rest =>
    if old.isPrefixOf (c :: rest) then
      new ++ replaceAllFuel old new fuel (rest.drop (old.length - 1))
    else
      c :: replaceAllFuel old new fuel rest

/-- Python `s.replace(old, new)` (all non-overlapping occurrences, left to
right), for nonempty `old`. -/
def pyReplace (s old new : String) : String :=
  ⟨replaceAllFuel old.data new.data s.data.length s.data⟩

/-- Lines 34–35 of main.py: the image-URI rewrite.
`if image_uri.startswith("ipfs://"): image_uri = image_uri.replace("ipfs://",
"https://ipfs.io/ipfs/")`. -/
def rewrite_uri (image_uri : String) : String :=
  if pyStartsWith image_uri "ipfs://" then
    pyReplace image_uri "ipfs://" "https://ipfs.io/ipfs/"
  else
    image_uri

/-- Modelled from the spec's words, for comparison with `rewrite_uri`:
"`ipfs://<rest>` → `https://ipfs.io/ipfs/<rest>` (exact prefix substitution)",
with any other URI passing through unchanged. -/
def rewrite_uri_spec (s : String) : String :=
  if pyStartsWith s "ipfs://" then
    ⟨"https://ipfs.io/ipfs/".data ++ s.data.drop 7⟩
  else
    s

/-- The `metadata["image"]` value as used by lines 31–35 of main.py: Python
calls `.startswith` on it, which raises `AttributeError` (modelled
`.error ()`) unless the value is a string; on a string it applies
`rewrite_uri`. -/
def scheme_rewrite : JValue → Except Unit String
  | .str s => .ok (rewrite_uri s)
  | _ => .error ()

/-- `fetch_image(image_uri)` — lines 49–64 of main.py. Returns the image (or
`none` when any step raised, the handlers catching everything) together with
the list of URLs GET-requested. -/
def fetch_image (env : Env) (image_uri : String) : Option Img × List String :=
  match env.net image_uri with
  | .ok body =>
    match env.decode body with
    | some image => (some image.resize400, [image_uri])
    | none => (none, [image_uri])
  | _ => (none, [image_uri])

/-- `fetch_metadata_and_image(metadata_uri)` — lines 19–45 of main.py.
Returns the fetched image (or `none`: every exception path is caught by the
two handlers and falls through to an implicit `return None`) together with the
list of URLs GET-requested, in order. -/
def fetch_metadata_and_image (env : Env) (metadata_uri : String) :
    Option Img × List String :=
  match env.net metadata_uri with
  | .ok body =>
    match env.parse body with
    | some metadata =>
      match pyIn "image" metadata with
      | .ok true =>
        match pyIndex metadata "image" with
        | .ok v =>
          match scheme_rewrite v with
          | .ok image_uri =>
            let r := fetch_image env image_uri
            (r.1, metadata_uri :: r.2)
          | .error _ => (none, [metadata_uri])
        | .error _ => (none, [metadata_uri])
      | .ok false => (none, [metadata_uri])
      | .error _ => (none, [metadata_uri])
    | none => (none, [metadata_uri])
  | _ => (none, [metadata_uri])

/-- The non-string uri case at line 91: `fetch_metadata_and_image(data["uri"])`
where `data["uri"]` need not be a string; `requests.get` on a non-string
raises inside the fetcher's `try`, which its catch-all converts to `None`
with no request issued. -/
def fetchFromValue (env : Env) : JValue → Option Img × List String
  | .str uri => fetch_metadata_and_image env uri
  | _ => (none, [])

/-! ## The subscriber state machine (`subscribe()`, lines 68–108 of main.py)

Program points of the coroutine:
* `outerCheck` — the `while not shutdown_requested` test at line 73;
* `connecting` — inside `websockets.connect` / the subscribe send (lines
  75–79); failure of any of these raises into the handlers at lines 100–103;
* `innerCheck` — the inner `while not shutdown_requested` test at line 81,
  i.e. the top of the receive loop on a live, subscribed connection;
* `receiving` — blocked in `await websocket.recv()` at line 82;
* `innerExit` — the receive loop exited normally (flag observed at line 81):
  line 98 (`retry_delay = 1`) runs and the `async with` closes the socket;
* `caught` — one of the handlers at lines 100–103 is running;
* `backoffCheck` — the `if not shutdown_requested` test at line 105;
* `sleeping` — inside `await asyncio.sleep(retry_delay)` at line 107; on
  waking, line 108 doubles the delay with the cap of 30;
* `terminated` — the coroutine returned. -/
inductive Phase where
  | outerCheck
  | connecting
  | innerCheck
  | receiving
  | innerExit
  | caught
  | backoffCheck
  | sleeping
  | terminated
deriving DecidableEq, Repr

/-- `image_queue = queue.Queue(maxsize=5)` — line 15 of main.py. -/
def QUEUE_CAPACITY : Nat := 5

/-- The mutable state of `subscribe()`: the program point, `retry_delay`, the
global `shutdown_requested` flag, and the contents of the global
`image_queue` (front of the list = next to be consumed). -/
structure SubState where
  phase : Phase
  retry_delay : Nat
  shutdown : Bool
  queue : List Img
deriving Repr

/-- Environment events resolving the coroutine's suspension points:
* `flag` — the signal handler (lines 112–115) sets `shutdown_requested`;
* `tick` — control reaches the next program point (no outside input needed);
* `connect ok` — the connect-and-subscribe attempt resolves;
* `recv (some m)` — `websocket.recv()` returns message `m`;
* `recv none` — `websocket.recv()` raises (connection closed or errored);
* `wake` — `asyncio.sleep` returns. -/
inductive Ev where
  | flag
  | tick
  | connect (ok : Bool)
  | recv (r : Option String)
  | wake

/-- Observable effects of one step, used to state the claims:
* `subscribedOk` — the "Subscribed to NewToken events." print at line 79;
* `sleep d` — the backoff sleep of `d` seconds at lines 106–107;
* `queueFull` — the "Queue full. Dropping oldest image." print at line 96;
* `fetchAttempt v` — `fetch_metadata_and_image` invoked with uri value `v`
  (line 91);
* `httpGet u` — an HTTP GET issued to `u` by the fetch pipeline. -/
inductive Obs where
  | subscribedOk
  | sleep (d : Nat)
  | queueFull
  | fetchAttempt (v : JValue)
  | httpGet (u : String)

/-- Lines 84–96 of main.py: handle one received message `m` from state `s`
(at program point `receiving`). `json.loads` (line 83) is not guarded by any
local handler, and neither are the `"uri" in data` / `data["uri"]` accesses:
a failure there propagates to the catch-all at lines 100–103 (`caught`).
A successful fetch is enqueued unless the queue is full, in which case the
incoming image is discarded with a log line. -/
def handleMessage (env : Env) (s : SubState) (m : String) : SubState × List Obs :=
  match env.parse m with
  | none => ({ s with phase := .caught }, [])
  | some data =>
    match pyIn "uri" data with
    | .error _ => ({ s with phase := .caught }, [])
    | .ok false => ({ s with phase := .innerCheck }, [])
    | .ok true =>
      match pyIndex data "uri" with
      | .error _ => ({ s with phase := .caught }, [])
      | .ok v =>
        let r := fetchFromValue env v
        let obs := Obs.fetchAttempt v :: r.2.map Obs.httpGet
        match r.1 with
        | none => ({ s with phase := .innerCheck }, obs)
        | some image =>
          if s.queue.length < QUEUE_CAPACITY then
            ({ s with phase := .innerCheck, queue := s.queue ++ [image] }, obs)
          else
            ({ s with phase := .innerCheck }, obs ++ [.queueFull])

/-- One step of `subscribe()` under event `ev`. Events that are not enabled at
the current program point leave the state unchanged. -/
def step (env : Env) (s : SubState) (ev : Ev) : SubState × List Obs :=
  match ev with
  | .flag => ({ s with shutdown := true }, [])
  | .tick =>
    match s.phase with
    | .outerCheck =>
      if s.shutdown then ({ s with phase := .terminated }, [])
      else ({ s with phase := .connecting }, [])
    | .innerCheck =>
      if s.shutdown then ({ s with phase := .innerExit }, [])
      else ({ s with phase := .receiving }, [])
    | .innerExit => ({ s with phase := .backoffCheck, retry_delay := 1 }, [])
    | .caught => ({ s with phase := .backoffCheck }, [])
    | .backoffCheck =>
      if s.shutdown then ({ s with phase := .outerCheck }, [])
      else ({ s with phase := .sleeping }, [.sleep s.retry_delay])
    | _ => (s, [])
  | .connect ok =>
    match s.phase with
    | .connecting =>
      if ok then ({ s with phase := .innerCheck }, [.subscribedOk])
      else ({ s with phase := .caught }, [])
    | _ => (s, [])
  | .recv r =>
    match s.phase with
    | .receiving =>
      match r with
      | none => ({ s with phase := .caught }, [])
      | some m => handleMessage env s m
    | _ => (s, [])
  | .wake =>
    match s.phase with
    | .sleeping =>
      ({ s with phase := .outerCheck,
                retry_delay := min (s.retry_delay * 2) 30 }, [])
    | _ => (s, [])

/-- Run the machine over a list of events, concatenating observations. -/
def drive (env : Env) (s : SubState) : List Ev → SubState × List Obs
  | [] => (s, [])
  | e :: es =>
    let r := step env s e
    let r2 := drive env r.1 es
    (r2.1, r.2 ++ r2.2)

/-- The initial state of `subscribe()`: `retry_delay = 1` (line 71), flag
clear, empty queue, about to test the outer loop condition. -/
def initState : SubState :=
  { phase := .outerCheck, retry_delay := 1, shutdown := false, queue := [] }

/-! ## The bounded queue as a standalone transition system

`image_queue` (line 15) is shared between the producer (`subscribe`, lines
93–94) and the consumer (`ImageDisplayApp.update_task`, line 140, which
removes the front element). Pushes and pops may interleave arbitrarily. -/

/-- One operation on `image_queue`: a producer push (guarded by the
not-full test of lines 93–94) or a consumer `image_queue.get()`. -/
inductive QOp where
  | push (image : Img)
  | pop

/-- Effect of one queue operation: `push` appends only when the length is
below capacity (lines 93–94, the incoming item is otherwise discarded);
`pop` removes the front element (line 140). -/
def qStep (q : List Img) : QOp → List Img
  | .push image => if q.length < QUEUE_CAPACITY then q ++ [image] else q
  | .pop => q.drop 1

/-- The queue contents after an arbitrary interleaving of pushes and pops,
starting from the empty queue of line 15. -/
def qRun (ops : List QOp) : List Img := ops.foldl qStep []

/-! ## Concrete fixtures used by the closed theorems and witnesses -/

/-- A sample decoded image. -/
def imgA : Img := { width := 10, height := 20, payload := "raw" }

/-- An environment where every request times out, nothing parses and nothing
decodes. -/
def envNone : Env :=
  { net := fun _ => .timeout, parse := fun _ => none, decode := fun _ => none }

/-- An environment where the full pipeline succeeds: the message "msg"
carries uri "http://meta", whose body "metabody" names image
"http://img", which decodes to `imgA`. -/
def envOk : Env :=
  { net := fun u =>
      if u = "http://meta" then .ok "metabody"
      else if u = "http://img" then .ok "imgbytes"
      else .timeout,
    parse := fun b =>
      if b = "msg" then some (.obj [("uri", .str "http://meta")])
      else if b = "metabody" then some (.obj [("image", .str "http://img")])
      else none,
    decode := fun b => if b = "imgbytes" then some imgA else none }

/-- An environment where the message "msg" carries a uri but the metadata
endpoint answers HTTP 500. -/
def envErr : Env :=
  { net := fun _ => .httpError 500,
    parse := fun b =>
      if b = "msg" then some (.obj [("uri", .str "http://meta")]) else none,
    decode := fun _ => none }

/-- An environment whose metadata body parses to a mapping with a numeric
`image` field. -/
def envNum : Env :=
  { net := fun u => if u = "u" then .ok "meta" else .timeout,
    parse := fun b => if b = "meta" then some (.obj [("image", .num 7)]) else none,
    decode := fun _ => none }

/-- An environment whose metadata body parses to a mapping with no `image`
field. -/
def envNoImage : Env :=
  { net := fun u => if u = "u" then .ok "noimg" else .timeout,
    parse := fun b => if b = "noimg" then some (.obj [("name", .str "x")]) else none,
    decode := fun _ => none }

/-- A subscriber blocked in `websocket.recv()` with default delay, flag clear
and empty queue. -/
def sReceiving : SubState :=
  { phase := .receiving, retry_delay := 1, shutdown := false, queue := [] }

/-- A subscriber blocked in `websocket.recv()` with the queue at capacity. -/
def sQueueFull : SubState :=
  { phase := .receiving, retry_delay := 1, shutdown := false,
    queue := [imgA, imgA, imgA, imgA, imgA] }

/-- Event sequence for the backoff-reset scenario: one failed connect (back
off 1 s), then a successful subscribe, then the connection drops, reaching
the next backoff sleep. -/
def evsBackoff : List Ev :=
  [.tick, .connect false, .tick, .tick, .wake,
   .tick, .connect true, .tick, .recv none, .tick, .tick]

/-! ## Helper lemmas -/

theorem isPrefixOf_append_self (a t : List Char) : a.isPrefixOf (a ++ t) = true := by
  induction a with
  | nil => cases t <;> rfl
  | cons c cs ih => simp [List.isPrefixOf, ih]

theorem replaceAllFuel_of_not_contains (old new : List Char) :
    ∀ (fuel : Nat) (s : List Char), containsSub old s = false →
      replaceAllFuel old new fuel s = s := by
  intro fuel
  induction fuel with
  | zero => intro s _; rfl
  | succ n ih =>
    intro s h
    cases s with
    | nil => rfl
    | cons c rest =>
      unfold containsSub at h
      rw [Bool.or_eq_false_iff] at h
      unfold replaceAllFuel
      rw [h.1]
      simp [ih rest h.2]

theorem pyReplace_single (old new t : List Char) (hne : old ≠ [])
    (hnc : containsSub old t = false) :
    replaceAllFuel old new (old ++ t).length (old ++ t) = new ++ t := by
  cases old with
  | nil => exact absurd rfl hne
  | cons c cs =>
    have hlen : ((c :: cs) ++ t).length = (cs ++ t).length + 1 := by simp
    rw [hlen]
    show replaceAllFuel (c :: cs) new ((cs ++ t).length + 1) (c :: (cs ++ t)) = new ++ t
    unfold replaceAllFuel
    have hpre : (c :: cs).isPrefixOf (c :: (cs ++ t)) = true := by
      have h0 := isPrefixOf_append_self (c :: cs) t
      rw [List.cons_append] at h0
      exact h0
    rw [hpre]
    simp only [if_true]
    have hdrop : (cs ++ t).drop ((c :: cs).length - 1) = t := by
      simp [List.drop_left]
    rw [hdrop, replaceAllFuel_of_not_contains (c :: cs) new _ t hnc]

theorem qStep_length_le (q : List Img) (op : QOp)
    (h : q.length ≤ QUEUE_CAPACITY) : (qStep q op).length ≤ QUEUE_CAPACITY := by
  cases op with
  | push image =>
    simp only [qStep]
    by_cases hlt : q.length < QUEUE_CAPACITY
    · rw [if_pos hlt]
      simp only [List.length_append, List.length_cons, List.length_nil]
      omega
    · rw [if_neg hlt]
      exact h
  | pop =>
    simp only [qStep, List.length_drop]
    omega

theorem qRun_le_aux (ops : List QOp) :
    ∀ q : List Img, q.length ≤ QUEUE_CAPACITY →
      (ops.foldl qStep q).length ≤ QUEUE_CAPACITY := by
  induction ops with
  | nil => intro q h; simpa using h
  | cons op rest ih =>
    intro q h
    simp only [List.foldl_cons]
    exact ih _ (qStep_length_le q op h)

/-! ## The claims -/

/-- C1. The claim states that the backoff delay doubles up to the cap of 30
and is reset to 1 immediately after any successful subscribe. The code
violates the reset half: the `retry_delay = 1` statement at line 98 sits
after the inner receive loop, which only exits normally when the shutdown
flag is observed, so on the path subscribe–disconnect the delay is never
reset. Concretely, after one failed connect (backoff sleep of 1 s, delay
doubled to 2), a successful subscribe and a dropped connection, the next
backoff sleep is 2 s, not the 1 s the claim requires, and `retry_delay`
remains 2. -/
theorem c1_backoff_not_reset_after_subscribe :
    drive envNone initState evsBackoff =
      ({ phase := .sleeping, retry_delay := 2, shutdown := false, queue := [] },
        [.sleep 1, .subscribedOk, .sleep 2]) := by
  rfl

/-- C2, counterexample. The claim states that a payload failing to parse
never terminates the receive loop and is never treated as a connection error
triggering reconnect. In the code `json.loads` (line 83) is not locally
guarded: on the message "not json" (which the parser rejects) the receive
loop is left for the catch-all handler (`caught`), and two steps later the
subscriber is in the reconnect backoff sleep. -/
theorem c2_parse_failure_counterexample :
    (step envNone sReceiving (.recv (some "not json"))).1.phase = .caught ∧
    drive envNone sReceiving [.recv (some "not json"), .tick, .tick] =
      ({ phase := .sleeping, retry_delay := 1, shutdown := false, queue := [] },
        [.sleep 1]) := by
  exact ⟨rfl, rfl⟩

/-- C2, amended. For every inbound message whose payload fails to parse, the
parse error propagates out of the receive loop into the subscriber's
catch-all handler (where it is logged), and is treated like a connection
error: the connection is abandoned and reconnection with backoff proceeds
(the subscriber sleeps the current retry delay); the queue is untouched and
the process does not crash. -/
theorem c2_parse_failure_triggers_reconnect (env : Env) (s : SubState) (m : String)
    (h1 : s.phase = .receiving) (h2 : s.shutdown = false)
    (h3 : env.parse m = none) :
    step env s (.recv (some m)) = ({ s with phase := .caught }, []) ∧
    drive env s [.recv (some m), .tick, .tick] =
      ({ s with phase := .sleeping }, [.sleep s.retry_delay]) := by
  obtain ⟨ph, rd, sd, qu⟩ := s
  simp only at h1 h2
  subst h1
  subst h2
  constructor
  · simp only [step, handleMessage, h3]
  · simp [drive, step, handleMessage, h3]

/-- C2, witness for the amended theorem at the concrete malformed message
"not json" under `envNone`. -/
theorem c2_parse_failure_witness :
    step envNone sReceiving (.recv (some "not json")) =
      ({ sReceiving with phase := .caught }, []) ∧
    drive envNone sReceiving [.recv (some "not json"), .tick, .tick] =
      ({ sReceiving with phase := .sleeping }, [.sleep 1]) :=
  c2_parse_failure_triggers_reconnect envNone sReceiving "not json" rfl rfl rfl

/-- C3, counterexample. The claim states the rewrite is an exact prefix
substitution with no other change to the string. The code uses Python
`str.replace`, which substitutes every occurrence: on
"ipfs://ipfs://x" the code produces
"https://ipfs.io/ipfs/https://ipfs.io/ipfs/x", while exact prefix
substitution (`rewrite_uri_spec`) produces
"https://ipfs.io/ipfs/ipfs://x". -/
theorem c3_rewrite_counterexample :
    rewrite_uri "ipfs://ipfs://x" = "https://ipfs.io/ipfs/https://ipfs.io/ipfs/x" ∧
    rewrite_uri_spec "ipfs://ipfs://x" = "https://ipfs.io/ipfs/ipfs://x" ∧
    rewrite_uri "ipfs://ipfs://x" ≠ rewrite_uri_spec "ipfs://ipfs://x" := by
  refine ⟨by decide, by decide, by decide⟩

/-- C3, amended. A URI not starting with "ipfs://" passes through completely
unchanged; a URI starting with "ipfs://" has every occurrence of "ipfs://"
replaced by "https://ipfs.io/ipfs/", which coincides with exact prefix
substitution whenever "ipfs://" does not reoccur after the leading prefix. -/
theorem c3_rewrite_amended (s : String) :
    (pyStartsWith s "ipfs://" = false → rewrite_uri s = s) ∧
    (∀ t : List Char, s.data = "ipfs://".data ++ t →
      containsSub "ipfs://".data t = false →
      rewrite_uri s = String.mk ("https://ipfs.io/ipfs/".data ++ t)) := by
  constructor
  · intro h
    unfold rewrite_uri
    rw [h]
    simp
  · intro t hdata hnc
    have hpre : pyStartsWith s "ipfs://" = true := by
      unfold pyStartsWith
      rw [hdata]
      exact isPrefixOf_append_self _ _
    unfold rewrite_uri
    rw [hpre]
    simp only [if_true]
    unfold pyReplace
    rw [hdata]
    rw [pyReplace_single "ipfs://".data "https://ipfs.io/ipfs/".data t (by decide) hnc]

/-- C3, witness for the amended theorem at the spec's own example:
"ipfs://abc/def" resolves to "https://ipfs.io/ipfs/abc/def". -/
theorem c3_rewrite_witness :
    rewrite_uri "ipfs://abc/def" = "https://ipfs.io/ipfs/abc/def" := by
  have h := (c3_rewrite_amended "ipfs://abc/def").2 "abc/def".data (by decide) (by decide)
  simpa using h

/-- C4. When a received message yields an artifact and the queue is at
capacity, the push is rejected: the state keeps the old queue contents
unchanged (the incoming, newest image is discarded), the rejection is
observable as the logged `queueFull` event (line 96), and the subscriber
returns to the top of the receive loop to handle the next message. -/
theorem c4_queue_full_reject (env : Env) (s : SubState) (m : String) (d v : JValue)
    (image : Img) (reqs : List String)
    (h1 : s.phase = .receiving) (h2 : s.queue.length = QUEUE_CAPACITY)
    (h3 : env.parse m = some d) (h4 : pyIn "uri" d = .ok true)
    (h5 : pyIndex d "uri" = .ok v) (h6 : fetchFromValue env v = (some image, reqs)) :
    step env s (.recv (some m)) =
      ({ s with phase := .innerCheck },
        Obs.fetchAttempt v :: (reqs.map Obs.httpGet ++ [.queueFull])) := by
  obtain ⟨ph, rd, sd, qu⟩ := s
  simp only at h1 h2
  subst h1
  simp only [step, handleMessage, h3, h4, h5, h6]
  rw [if_neg (by omega)]
  simp

/-- C4, witness: under `envOk`, with the queue holding five images, the
message "msg" fetches an image that is rejected with a `queueFull`
observation and an unchanged queue. -/
theorem c4_queue_full_reject_witness :
    step envOk sQueueFull (.recv (some "msg")) =
      ({ sQueueFull with phase := .innerCheck },
        Obs.fetchAttempt (.str "http://meta") ::
          ([Obs.httpGet "http://meta", Obs.httpGet "http://img"] ++ [.queueFull])) :=
  c4_queue_full_reject envOk sQueueFull "msg"
    (.obj [("uri", .str "http://meta")]) (.str "http://meta")
    imgA.resize400 ["http://meta", "http://img"] rfl rfl rfl rfl rfl rfl

/-- C5. For every interleaving of producer pushes and consumer pops starting
from the empty queue of line 15, the queue length never exceeds the capacity,
and the capacity is the constant 5 fixed at construction. -/
theorem c5_queue_length_le_capacity (ops : List QOp) :
    (qRun ops).length ≤ QUEUE_CAPACITY ∧ QUEUE_CAPACITY = 5 := by
  refine ⟨qRun_le_aux ops [] (by simp [QUEUE_CAPACITY]), rfl⟩

/-- C6. A message that parses to structured data lacking the `uri` field is
discarded silently: the step emits no observation at all (no fetch attempt,
no HTTP GET, no log), and the only state change is the return to the top of
the receive loop on the same connection — queue, retry delay and shutdown
flag are untouched, so the subscriber remains subscribed. -/
theorem c6_missing_uri_no_fetch (env : Env) (s : SubState) (m : String) (d : JValue)
    (h1 : s.phase = .receiving) (h2 : env.parse m = some d)
    (h3 : pyIn "uri" d = .ok false) :
    step env s (.recv (some m)) = ({ s with phase := .innerCheck }, []) := by
  obtain ⟨ph, rd, sd, qu⟩ := s
  simp only at h1
  subst h1
  simp only [step, handleMessage, h2, h3]

/-- C6, witness: the message "metabody" parses under `envOk` to a mapping
without a `uri` field and is discarded with no observations. -/
theorem c6_missing_uri_witness :
    step envOk sReceiving (.recv (some "metabody")) =
      ({ sReceiving with phase := .innerCheck }, []) :=
  c6_missing_uri_no_fetch envOk sReceiving "metabody"
    (.obj [("image", .str "http://img")]) rfl rfl rfl

/-- C7. Failures of the metadata fetch are local. First conjunct: when the
metadata GET returns a non-2xx status (e.g. HTTP 500), times out, or its
body fails to parse, `fetch_metadata_and_image` returns no artifact (it
never raises: it is a total function to an `Option`) and only the one
metadata request was issued. Second conjunct: when a received message
carries a uri whose fetch produces no artifact, the subscriber's only state
change is the return to the top of the receive loop (queue, delay and flag
untouched — it remains subscribed), and from there the next tick blocks on
the next inbound message, which is therefore still processed. -/
theorem c7_fetch_failure_local :
    (∀ (env : Env) (uri : String),
      ((∃ c, env.net uri = .httpError c) ∨ env.net uri = .timeout ∨
        (∃ body, env.net uri = .ok body ∧ env.parse body = none)) →
      fetch_metadata_and_image env uri = (none, [uri])) ∧
    (∀ (env : Env) (s : SubState) (m : String) (d v : JValue),
      s.phase = .receiving → s.shutdown = false →
      env.parse m = some d → pyIn "uri" d = .ok true → pyIndex d "uri" = .ok v →
      (fetchFromValue env v).1 = none →
      (step env s (.recv (some m))).1 = { s with phase := .innerCheck } ∧
      step env { s with phase := Phase.innerCheck } .tick =
        ({ s with phase := .receiving }, [])) := by
  constructor
  · intro env uri h
    rcases h with ⟨c, hc⟩ | hto | ⟨body, hok, hparse⟩
    · simp only [fetch_metadata_and_image, hc]
    · simp only [fetch_metadata_and_image, hto]
    · simp only [fetch_metadata_and_image, hok, hparse]
  · intro env s m d v h1 h2 h3 h4 h5 h6
    obtain ⟨ph, rd, sd, qu⟩ := s
    simp only at h1 h2
    subst h1
    subst h2
    constructor
    · simp only [step, handleMessage, h3, h4, h5, h6]
    · simp [step]

/-- C7, witness: under `envNone` every GET times out and the fetch yields no
artifact with one request; under `envErr` (metadata endpoint answers HTTP
500) the message "msg" leaves the subscriber at the top of the receive
loop. -/
theorem c7_fetch_failure_witness :
    fetch_metadata_and_image envNone "u" = (none, ["u"]) ∧
    (step envErr sReceiving (.recv (some "msg"))).1 =
      { sReceiving with phase := .innerCheck } :=
  ⟨c7_fetch_failure_local.1 envNone "u" (Or.inr (Or.inl rfl)),
   (c7_fetch_failure_local.2 envErr sReceiving "msg"
      (.obj [("uri", .str "http://meta")]) (.str "http://meta")
      rfl rfl rfl rfl rfl rfl).1⟩

/-- C8. Cooperative shutdown. First conjunct: with the flag set while in the
backoff sleep, waking moves the subscriber to the outer loop test (never to
`connecting` — no reconnection is attempted and no `subscribedOk` or `sleep`
is observed) and one further step terminates it, with the queue unchanged.
Second conjunct: with the flag set, from the top of the receive loop (the
point reached right after the current message is processed) four steps
terminate the subscriber — the clean inner exit of line 98 runs, no backoff
sleep or reconnection happens, nothing is observed, and the queue keeps all
already-queued artifacts. The machine is a total function, so termination
never raises. -/
theorem c8_cancellation_terminates :
    (∀ (env : Env) (s : SubState), s.phase = .sleeping → s.shutdown = true →
      step env s .wake =
        ({ s with phase := .outerCheck,
                  retry_delay := min (s.retry_delay * 2) 30 }, []) ∧
      drive env s [.wake, .tick] =
        ({ s with phase := .terminated,
                  retry_delay := min (s.retry_delay * 2) 30 }, [])) ∧
    (∀ (env : Env) (s : SubState), s.phase = .innerCheck → s.shutdown = true →
      drive env s [.tick, .tick, .tick, .tick] =
        ({ s with phase := .terminated, retry_delay := 1 }, [])) := by
  constructor
  · intro env s h1 h2
    obtain ⟨ph, rd, sd, qu⟩ := s
    simp only at h1 h2
    subst h1
    subst h2
    exact ⟨rfl, rfl⟩
  · intro env s h1 h2
    obtain ⟨ph, rd, sd, qu⟩ := s
    simp only at h1 h2
    subst h1
    subst h2
    rfl

/-- C8, witness at concrete states with delay 4, flag set and one queued
image: the mid-sleep scenario ends terminated with delay 8 (doubled, never
reset by a reconnect) and the queued image retained; the subscribed scenario
ends terminated with the queued image retained. -/
theorem c8_cancellation_witness :
    drive envNone
        { phase := .sleeping, retry_delay := 4, shutdown := true, queue := [imgA] }
        [.wake, .tick] =
      ({ phase := .terminated, retry_delay := 8, shutdown := true,
         queue := [imgA] }, []) ∧
    drive envNone
        { phase := .innerCheck, retry_delay := 4, shutdown := true, queue := [imgA] }
        [.tick, .tick, .tick, .tick] =
      ({ phase := .terminated, retry_delay := 1, shutdown := true,
         queue := [imgA] }, []) := by
  constructor
  · exact (c8_cancellation_terminates.1 envNone _ rfl rfl).2
  · exact c8_cancellation_terminates.2 envNone _ rfl rfl

/-- C9. A metadata mapping whose `image` field holds a non-string value
produces no artifact and no second request: the `.startswith` scheme check
raises on the non-string value, the step's handler catches it, and the
fetch returns `None` (the function is total — nothing propagates). -/
theorem c9_nonstring_image_none (env : Env) (uri body : String) (m v : JValue)
    (h1 : env.net uri = .ok body) (h2 : env.parse body = some m)
    (h3 : pyIn "image" m = .ok true) (h4 : pyIndex m "image" = .ok v)
    (h5 : ∀ s, v ≠ .str s) :
    fetch_metadata_and_image env uri = (none, [uri]) := by
  have hsr : scheme_rewrite v = .error () := by
    cases v with
    | str s => exact absurd rfl (h5 s)
    | _ => rfl
  simp only [fetch_metadata_and_image, h1, h2, h3, h4, hsr]

/-- C9, witness: under `envNum` the metadata of "u" carries the numeric
`image` value 7 and the fetch yields no artifact with one request. -/
theorem c9_nonstring_image_witness :
    fetch_metadata_and_image envNum "u" = (none, ["u"]) :=
  c9_nonstring_image_none envNum "u" "meta"
    (.obj [("image", .num 7)]) (.num 7) rfl rfl rfl rfl
    (fun _ h => JValue.noConfusion h)

/-- C10. First conjunct: a successful metadata fetch whose parsed body lacks
the `image` field returns no artifact, and the request list is exactly the
single metadata GET — no second HTTP request. Second conjunct: in every
case, either at most one request was issued, or the metadata fetch
succeeded, its body parsed, and the `image` field was present (with a string
value): the image fetch is issued only then. -/
theorem c10_missing_image_no_second_request (env : Env) (uri : String) :
    (∀ (body : String) (m : JValue), env.net uri = .ok body → env.parse body = some m →
      pyIn "image" m = .ok false →
      fetch_metadata_and_image env uri = (none, [uri])) ∧
    ((fetch_metadata_and_image env uri).2.length ≤ 1 ∨
      ∃ (body : String) (m : JValue) (s : String),
        env.net uri = .ok body ∧ env.parse body = some m ∧
        pyIn "image" m = .ok true ∧ pyIndex m "image" = .ok (.str s)) := by
  constructor
  · intro body m h1 h2 h3
    simp only [fetch_metadata_and_image, h1, h2, h3]
  · cases hnet : env.net uri with
    | ok body =>
      cases hparse : env.parse body with
      | some m =>
        cases hin : pyIn "image" m with
        | ok b =>
          cases b with
          | true =>
            cases hidx : pyIndex m "image" with
            | ok v =>
              by_cases hstr : ∃ s, v = JValue.str s
              · obtain ⟨s, rfl⟩ := hstr
                exact Or.inr ⟨body, m, s, rfl, hparse, hin, hidx⟩
              · left
                have hsr : scheme_rewrite v = .error () := by
                  cases v with
                  | str s => exact absurd ⟨s, rfl⟩ hstr
                  | _ => rfl
                simp [fetch_metadata_and_image, hnet, hparse, hin, hidx, hsr]
            | error e => left; simp [fetch_metadata_and_image, hnet, hparse, hin, hidx]
          | false => left; simp [fetch_metadata_and_image, hnet, hparse, hin]
        | error e => left; simp [fetch_metadata_and_image, hnet, hparse, hin]
      | none => left; simp [fetch_metadata_and_image, hnet, hparse]
    | httpError c => left; simp [fetch_metadata_and_image, hnet]
    | timeout => left; simp [fetch_metadata_and_image, hnet]

/-- C10, witness: under `envNoImage` the metadata of "u" parses to a mapping
without an `image` field and the fetch returns no artifact having issued
only the metadata request. -/
theorem c10_missing_image_witness :
    fetch_metadata_and_image envNoImage "u" = (none, ["u"]) :=
  (c10_missing_image_no_second_request envNoImage "u").1 "noimg"
    (.obj [("name", .str "x")]) rfl rfl rfl
